import Mathlib

/-!
Verification of the concurrent file-checking and result-aggregation engine of
the `normino` tool (src/normino.py) against its design specification.

The Python code is shallowly embedded.  Python strings are modelled as
`List Char` (a Python `str` is a sequence of code points), so that every
string operation is structurally recursive and evaluates inside the kernel.
Python library primitives (`str.split`, `str.replace`, `os.path` helpers,
`subprocess.run`, `list.sort`, ...) are modelled by executable Lean
functions whose behaviour on the inputs the tool produces matches the
library; each model carries a doc comment describing its scope.  Python
exceptions are modelled with `Except`: an operation that can raise returns
`Except PyErr _`, and `try/except` blocks become matches on that result.
-/

/-- A Python string: a sequence of characters (code points). -/
abbrev PyStr := List Char

/-- Converts a Lean string literal to the `PyStr` model. -/
def ps (s : String) : PyStr := s.data

/-- Model of Python `sub in s` (substring containment). -/
def pyContains (s sub : PyStr) : Bool :=
  match s with
  | [] => sub.isEmpty
  | _ :: rest => sub.isPrefixOf s || pyContains rest sub

/-- Model of Python `s.split()` with no argument: split on whitespace runs,
dropping empty pieces. -/
def pySplitWs (s : PyStr) : List PyStr :=
  (List.splitOnP (fun c => c.isWhitespace) s).filter (fun w => !w.isEmpty)

/-- Fuel-driven worker for `pySplitOn`; the fuel is the length of the string,
which bounds the number of steps. -/
def pySplitOnAux (sep : PyStr) : Nat → PyStr → PyStr → List PyStr
  | _, [], acc => [acc.reverse]
  | 0, s, acc => [acc.reverse ++ s]
  | fuel + 1, c :: rest, acc =>
    if sep.isPrefixOf (c :: rest) then
      acc.reverse :: pySplitOnAux sep fuel (rest.drop (sep.length - 1)) []
    else
      pySplitOnAux sep fuel rest (c :: acc)

/-- Model of Python `s.split(sep)` for a non-empty separator `sep`. -/
def pySplitOn (s sep : PyStr) : List PyStr := pySplitOnAux sep s.length s []

/-- Fuel-driven worker for `pyReplace`. -/
def pyReplaceAux (old new : PyStr) : Nat → PyStr → PyStr
  | _, [] => []
  | 0, s => s
  | fuel + 1, c :: rest =>
    if old.isPrefixOf (c :: rest) then
      new ++ pyReplaceAux old new fuel ((c :: rest).drop old.length)
    else
      c :: pyReplaceAux old new fuel rest

/-- Model of Python `s.replace(old, new)` for a non-empty `old`: replaces
every non-overlapping occurrence, scanning left to right. -/
def pyReplace (s old new : PyStr) : PyStr := pyReplaceAux old new s.length s

/-- Model of Python `s.strip()`: removes leading and trailing whitespace. -/
def pyStrip (s : PyStr) : PyStr :=
  ((s.dropWhile Char.isWhitespace).reverse.dropWhile Char.isWhitespace).reverse

/-- Model of Python `sep.join(parts)`. -/
def pyJoin (sep : PyStr) (parts : List PyStr) : PyStr := List.intercalate sep parts

/-- Model of Python `s.startswith(pre)`. -/
def pyStartsWith (s pre : PyStr) : Bool := pre.isPrefixOf s

/-- Model of Python `s.endswith(suf)`. -/
def pyEndsWith (s suf : PyStr) : Bool := suf.reverse.isPrefixOf s.reverse

/-- Model of Python `s.splitlines()` for newline-separated text: split on
the newline character, without a trailing empty piece. -/
def pySplitlines (s : PyStr) : List PyStr :=
  if s.isEmpty then []
  else
    let pieces := pySplitOn s [Char.ofNat 10]
    if pieces.getLast? = some [] then pieces.dropLast else pieces

/-- Model of Python format right-justification `f"{s:>w}"`: pad with spaces
on the left up to width `w`. -/
def rjust (s : PyStr) (w : Nat) : PyStr := List.replicate (w - s.length) ' ' ++ s

/-- Model of Python `s.ljust(w)`: pad with spaces on the right up to width
`w`. -/
def ljust (s : PyStr) (w : Nat) : PyStr := s ++ List.replicate (w - s.length) ' '

/-- Model of Python `s.upper()` for ASCII strings. -/
def pyUpper (s : PyStr) : PyStr := s.map Char.toUpper

/-- Fuel-driven decimal digit expansion of a natural number. -/
def natReprAux : Nat → Nat → PyStr
  | 0, _ => []
  | fuel + 1, n =>
    if n < 10 then [Nat.digitChar n]
    else natReprAux fuel (n / 10) ++ [Nat.digitChar (n % 10)]

/-- Decimal representation of a natural number, as produced by Python
string formatting of a non-negative integer. -/
def natRepr (n : Nat) : PyStr := natReprAux (n + 1) n

/-- Reads a string of decimal digits as a natural number (used to interpret
the line and column fields the parser extracts). -/
def pyToNat (s : PyStr) : Nat := s.foldl (fun acc c => acc * 10 + (c.toNat - 48)) 0

/-- The colorama `Style.RESET_ALL` escape sequence. -/
def STYLE_RESET_ALL : PyStr := ps "\x1b[0m"

/-- The colorama `Style.BRIGHT` escape sequence. -/
def STYLE_BRIGHT : PyStr := ps "\x1b[1m"

/-- The `COLOR_RGB` table of `colorize_text` (src/normino.py): colour name to
RGB triple, defaulting to white. -/
def COLOR_RGB (name : PyStr) : Nat × Nat × Nat :=
  if name = ps "RED" then (255, 76, 76)
  else if name = ps "GREEN" then (158, 214, 115)
  else if name = ps "BLUE" then (25, 72, 133)
  else if name = ps "YELLOW" then (240, 226, 111)
  else if name = ps "CYAN" then (6, 146, 213)
  else if name = ps "MAGENTA" then (255, 182, 193)
  else if name = ps "ORANGE" then (241, 143, 51)
  else if name = ps "WHITE" then (245, 245, 245)
  else (255, 255, 255)

/-- Model of `colorize_text(text, color_name, bright)` (src/normino.py):
wraps `text` in a 24-bit ANSI colour escape and a reset. -/
def colorize_text (text color_name : PyStr) (bright : Bool) : PyStr :=
  let rgb := COLOR_RGB (pyUpper color_name)
  let style_code := if bright then STYLE_BRIGHT else []
  style_code ++ ps "\x1b[38;2;" ++ natRepr rgb.1 ++ ps ";" ++ natRepr rgb.2.1 ++ ps ";"
    ++ natRepr rgb.2.2 ++ ps "m" ++ text ++ STYLE_RESET_ALL

/-- Python exceptions that `parse_output_line` can raise: `IndexError` from
a list subscript that is out of range, and `ValueError` from unpacking a
`split(",")` result whose length is not 2 (carrying that length). -/
inductive PyErr where
  | indexError : PyErr
  | valueError : Nat → PyErr
deriving DecidableEq

/-- The `str(e)` text of a modelled Python exception. -/
def pyErrMsg : PyErr → PyStr
  | .indexError => ps "list index out of range"
  | .valueError n =>
    if n < 2 then ps "not enough values to unpack (expected 2, got " ++ natRepr n ++ ps ")"
    else ps "too many values to unpack (expected 2)"

/-- The intermediate values of the `"Error:"` branch of `parse_output_line`
(src/normino.py lines 124-130): the extracted line number, column number,
rule name and detail text, or the exception the Python code raises.
Mirrors the source statement by statement:
`error_description = " ".join(parts[1:])`,
`details = error_description.split("(")[1].split(")")[0]` (the subscript
`[1]` raises `IndexError` when there is no parenthesis),
`line_number, col_number = details.replace(...).replace(...).split(",")`
(unpacking raises `ValueError` unless the split has exactly two pieces),
`error_name = error_description.split("(")[0].strip()`, and
`detail_text = error_description.split(")")[1].strip() if detailed else ""`
(the subscript `[1]` raises `IndexError` when there is no closing
parenthesis and `detailed` is requested). -/
def errorLineFields (line : PyStr) (detailed : Bool) : Except PyErr (PyStr × PyStr × PyStr × PyStr) :=
  let parts := pySplitWs line
  let error_description := pyJoin (ps " ") parts.tail
  match (pySplitOn error_description (ps "(")).get? 1 with
  | none => .error .indexError
  | some afterParen =>
    let details := (pySplitOn afterParen (ps ")")).headD []
    match pySplitOn (pyReplace (pyReplace details (ps "line: ") []) (ps "col: ") []) (ps ",") with
    | [line_number, col_number] =>
      let error_name := pyStrip ((pySplitOn error_description (ps "(")).headD [])
      if detailed then
        match (pySplitOn error_description (ps ")")).get? 1 with
        | none => .error .indexError
        | some t => .ok (line_number, col_number, error_name, pyStrip t)
      else .ok (line_number, col_number, error_name, [])
    | pieces => .error (.valueError pieces.length)

/-- The `error_info` string of `parse_output_line` (src/normino.py line 133):
right-justified line and column numbers in yellow followed by the rule name
in red. -/
def error_info_render (line_number col_number error_name : PyStr) : PyStr :=
  colorize_text (rjust line_number 4) (ps "YELLOW") false ++ ps " "
    ++ colorize_text (rjust col_number 4) (ps "YELLOW") false ++ ps " "
    ++ colorize_text error_name (ps "RED") false

/-- Model of `parse_output_line(line, detailed)` (src/normino.py lines
119-137).  Returns `.ok (some d)` for a line yielding diagnostic text `d`,
`.ok none` for a line yielding no diagnostic, and `.error e` when the
Python code raises exception `e`. -/
def parse_output_line (line : PyStr) (detailed : Bool) : Except PyErr (Option PyStr) :=
  if pyContains line (ps "Unexpected EOF") then .ok (some line)
  else if pyContains line (ps "Error:") then
    match errorLineFields line detailed with
    | .error e => .error e
    | .ok fields =>
      let error_info := error_info_render fields.1 fields.2.1 fields.2.2.1
      .ok (some (if detailed then error_info ++ ps " " ++ fields.2.2.2 else error_info))
  else if pyContains line (ps ": Error!") then .ok none
  else .ok none

/-- Behaviour of one external `norminette` process: it either runs for some
number of seconds and finishes with an exit code and captured standard
output, or the invocation layer raises some other exception (for example
when the executable is missing). -/
inductive ProcBehavior where
  | runsFor (seconds : Nat) (exitCode : Int) (stdout : PyStr)
  | raisesOther (msg : PyStr)
deriving DecidableEq

/-- Result of a `subprocess.run` call as seen by the caller: normal
completion, `CalledProcessError`, `TimeoutExpired`, or another exception. -/
inductive RunResult where
  | completed (exitCode : Int) (stdout : PyStr)
  | calledProcessError (msg : PyStr)
  | timeoutExpired
  | otherExn (msg : PyStr)
deriving DecidableEq

/-- Model of `subprocess.run(cmd, capture_output=True, text=True,
timeout=T)` with an optional `check` flag: the call raises
`TimeoutExpired` when the process runs longer than the timeout, raises
`CalledProcessError` only when `check` is set and the exit code is
non-zero (the exception text is abstracted), and otherwise returns the
completed process.  `check_file` passes `check = false`, the Python
default. -/
def subprocess_run (check : Bool) (timeout : Nat) (b : ProcBehavior) : RunResult :=
  match b with
  | .runsFor s code out =>
    if s > timeout then .timeoutExpired
    else if check ∧ code ≠ 0 then .calledProcessError (ps "Command returned non-zero exit status.")
    else .completed code out
  | .raisesOther m => .otherExn m

/-- The third component of a `check_file` result tuple: Python's `None`, a
list of diagnostic strings, or a failure message string. -/
inductive Payload where
  | noneP : Payload
  | errs : List PyStr → Payload
  | msg : PyStr → Payload
deriving DecidableEq

/-- Python truthiness of a `check_file` payload (`None` and empty
collections are falsy). -/
def pyTruthy : Payload → Bool
  | .noneP => false
  | .errs l => !l.isEmpty
  | .msg s => !s.isEmpty

/-- One `check_file` result tuple `(file, status, error_lines)`. -/
structure Outcome where
  file : PyStr
  status : PyStr
  payload : Payload
deriving DecidableEq

/-- The diagnostic list collected by the comprehension in `check_file`
(src/normino.py lines 105-109): parse every line of the captured output,
keep truthy results in order, and propagate the first exception a parse
raises. -/
def collectErrors (detailed : Bool) : List PyStr → Except PyErr (List PyStr)
  | [] => .ok []
  | line :: rest =>
    match parse_output_line line detailed with
    | .error e => .error e
    | .ok none => collectErrors detailed rest
    | .ok (some d) =>
      if d.isEmpty then collectErrors detailed rest
      else
        match collectErrors detailed rest with
        | .error e => .error e
        | .ok ds => .ok (d :: ds)

/-- Model of `check_file(file, detailed)` (src/normino.py lines 96-116) run
against a process with behaviour `b`.  The `try` block runs
`subprocess.run` with a 5 second timeout and classifies the captured
output; the `except` clauses map `CalledProcessError` to `"fail"`,
`TimeoutExpired` to `"timeout"`, and any other exception — including an
`IndexError` or `ValueError` escaping `parse_output_line` — to
`"crash"`. -/
def check_file (file : PyStr) (detailed : Bool) (b : ProcBehavior) : Outcome :=
  match subprocess_run false 5 b with
  | .completed _ stdout =>
    if pyContains stdout (ps "Notice:") && pyContains stdout (ps ": OK!") then
      ⟨file, ps "warning", .noneP⟩
    else if pyContains stdout (ps ": OK!") then
      ⟨file, ps "ok", .noneP⟩
    else
      match collectErrors detailed (pySplitlines stdout) with
      | .ok errs => ⟨file, ps "error", .errs errs⟩
      | .error e => ⟨file, ps "crash", .msg (ps "An error occurred: " ++ pyErrMsg e)⟩
  | .calledProcessError m => ⟨file, ps "fail", .msg m⟩
  | .timeoutExpired => ⟨file, ps "timeout", .msg (ps "Checking timed out for " ++ file)⟩
  | .otherExn m => ⟨file, ps "crash", .msg (ps "An error occurred: " ++ m)⟩

/-- The four result buckets of `run_norminette` (src/normino.py line 151),
in source order: `files_ok, files_failed, errors_by_file, warning_files`. -/
structure Buckets where
  files_ok : List PyStr
  files_failed : List (PyStr × Payload)
  errors_by_file : List (PyStr × Payload)
  warning_files : List (PyStr × List PyStr)
deriving DecidableEq

/-- The fixed advisory attached to warning files (src/normino.py line 162). -/
def warningAdvisory : PyStr := ps "Make sure your global is const or static!"

/-- The body of the completion-collection loop of `run_norminette`
(src/normino.py lines 156-167): route one completed result into its
bucket.  A result with status `"error"` and a falsy diagnostics list
matches neither the `error` branch (guarded by `and error_lines`) nor the
failure-status branch, and is dropped. -/
def foldOutcome (b : Buckets) (o : Outcome) : Buckets :=
  if o.status = ps "ok" then
    ⟨b.files_ok ++ [o.file], b.files_failed, b.errors_by_file, b.warning_files⟩
  else if o.status = ps "warning" then
    ⟨b.files_ok, b.files_failed, b.errors_by_file, b.warning_files ++ [(o.file, [warningAdvisory])]⟩
  else if o.status = ps "error" ∧ pyTruthy o.payload = true then
    ⟨b.files_ok, b.files_failed, b.errors_by_file ++ [(o.file, o.payload)], b.warning_files⟩
  else if o.status = ps "fail" ∨ o.status = ps "timeout" ∨ o.status = ps "crash" then
    ⟨b.files_ok, b.files_failed ++ [(o.file, o.payload)], b.errors_by_file, b.warning_files⟩
  else b

/-- Collect completed results into the four buckets, in completion order. -/
def aggregate (outs : List Outcome) : Buckets :=
  outs.foldl foldOutcome ⟨[], [], [], []⟩

/-- Comparison of a result pair by file path only, as performed by
`files_failed.sort(key=lambda x: x[0])` (src/normino.py line 193). -/
def fstLe {β : Type} (x y : PyStr × β) : Prop := x.1 ≤ y.1

/-- Rank used to compare payloads of different shapes; within
`errors_by_file` every payload is a diagnostics list, so ranks never
differ there. -/
def payloadRank : Payload → Nat
  | .noneP => 0
  | .errs _ => 1
  | .msg _ => 2

/-- The diagnostics list of a payload (empty for the other shapes). -/
def payloadErrsData : Payload → List PyStr
  | .errs l => l
  | _ => []

/-- The message text of a payload (empty for the other shapes). -/
def payloadMsgData : Payload → PyStr
  | .msg s => s
  | _ => []

/-- Key injecting a result pair into a lexicographic order: Python's
`errors_by_file.sort()` (src/normino.py line 188) compares the
`(file, error_lines)` tuples lexicographically — file path first, then
the diagnostics lists element by element. -/
def errKey (x : PyStr × Payload) : PyStr ×ₗ (Nat ×ₗ (List PyStr ×ₗ PyStr)) :=
  toLex (x.1, toLex (payloadRank x.2, toLex (payloadErrsData x.2, payloadMsgData x.2)))

/-- Tuple comparison used by `errors_by_file.sort()`. -/
def errPairLe (x y : PyStr × Payload) : Prop := errKey x ≤ errKey y

instance : DecidableRel (@fstLe Payload) := fun x y => inferInstanceAs (Decidable (x.1 ≤ y.1))

instance : IsTotal (PyStr × Payload) fstLe := ⟨fun x y => le_total x.1 y.1⟩

instance : IsTrans (PyStr × Payload) fstLe := ⟨fun _ _ _ h1 h2 => le_trans h1 h2⟩

instance : DecidableRel errPairLe := fun x y => inferInstanceAs (Decidable (errKey x ≤ errKey y))

instance : IsTotal (PyStr × Payload) errPairLe := ⟨fun x y => le_total (errKey x) (errKey y)⟩

instance : IsTrans (PyStr × Payload) errPairLe := ⟨fun _ _ _ h1 h2 => le_trans h1 h2⟩

/-- Model of `files_ok.sort()` (src/normino.py line 173): Python's stable
ascending sort of the path strings, modelled by a stable insertion sort. -/
def sortedPass (b : Buckets) : List PyStr := List.insertionSort (fun x y => x ≤ y) b.files_ok

/-- Model of `errors_by_file.sort()` (src/normino.py line 188): stable
ascending sort by the `(file, error_lines)` tuple. -/
def sortedFail (b : Buckets) : List (PyStr × Payload) := List.insertionSort errPairLe b.errors_by_file

/-- Model of `files_failed.sort(key=lambda x: x[0])` (src/normino.py line
193): stable ascending sort by file path. -/
def sortedFailed (b : Buckets) : List (PyStr × Payload) := List.insertionSort fstLe b.files_failed

/-- The `len(files_ok)` count printed as "Correct files". -/
def okCount (b : Buckets) : Nat := b.files_ok.length

/-- The `len(unique_files_with_errors)` count printed as "Files with
errors" (src/normino.py line 203): the number of distinct files in the
error bucket. -/
def errorFileCount (b : Buckets) : Nat := ((b.errors_by_file.map Prod.fst).dedup).length

/-- The `len(files_failed)` count printed as "Files that crashed
norminette". -/
def failedCount (b : Buckets) : Nat := b.files_failed.length

/-- Model of `os.path.dirname` for slash-separated paths: everything before
the last slash, with the root directory written `/`. -/
def dirname (p : PyStr) : PyStr :=
  let parts := pySplitOn p (ps "/")
  let d := pyJoin (ps "/") parts.dropLast
  if d.isEmpty && pyStartsWith p (ps "/") then ps "/" else d

/-- Model of `os.path.abspath` relative to working directory `cwd`, for the
path shapes the tool uses: absolute paths are returned unchanged, `.`
resolves to `cwd`, and other relative names are joined onto `cwd`
(`..` traversal is outside the modelled scope). -/
def abspath (cwd p : PyStr) : PyStr :=
  if pyStartsWith p (ps "/") then p
  else if p = ps "." then cwd
  else if pyStartsWith p (ps "./") then cwd ++ ps "/" ++ p.drop 2
  else cwd ++ ps "/" ++ p

/-- Model of `os.path.relpath` for paths lying under the working
directory; other paths are returned unchanged. -/
def relpath (cwd p : PyStr) : PyStr :=
  if pyStartsWith p (cwd ++ ps "/") then p.drop (cwd.length + 1) else p

/-- One `stats[full_dir] += 1` step of the silent-mode summary
(src/normino.py lines 215-219): a `defaultdict(int)` keyed in insertion
order. -/
def bump (stats : List (PyStr × Nat)) (k : PyStr) : List (PyStr × Nat) :=
  if stats.any (fun kv => kv.1 = k) then
    stats.map (fun kv => if kv.1 = k then (kv.1, kv.2 + 1) else kv)
  else stats ++ [(k, 1)]

/-- The silent-mode return value of `run_norminette` (src/normino.py lines
214-220): the number of failing files per containing directory, combining
`errors_by_file` and `files_failed`. -/
def dirStats (cwd : PyStr) (b : Buckets) : List (PyStr × Nat) :=
  (b.errors_by_file ++ b.files_failed).foldl (fun stats fp => bump stats (dirname (abspath cwd fp.1))) []

/-- A snapshot of the filesystem as `find_c_and_h_files` observes it:
the process working directory, the absolute paths of all directories and
of all regular files, and the contents (raw lines) of a
`downloaded.tests` manifest in the working directory when one exists.
`os.path.isfile`/`os.path.isdir` are membership in the two lists, and a
directory's entries are the paths whose `dirname` is that directory. -/
structure FS where
  cwd : PyStr
  dirsList : List PyStr
  filesList : List PyStr
  downloadedTests : Option (List PyStr)

/-- The subdirectories of `root`, as absolute paths (the walk joins each
listed name onto `root`, which yields exactly these paths). -/
def childDirs (fs : FS) (root : PyStr) : List PyStr :=
  fs.dirsList.filter (fun d => dirname d = root)

/-- The regular files directly inside `root`, as absolute paths. -/
def childFiles (fs : FS) (root : PyStr) : List PyStr :=
  fs.filesList.filter (fun f => dirname f = root)

/-- The `os.walk` loop of `find_c_and_h_files` (src/normino.py lines
85-93) with its in-place pruning: at each directory, drop the
subdirectories whose absolute path is excluded (pruning their entire
subtrees from the walk), collect the non-excluded `.c`/`.h` files, and
recurse top-down into the kept subdirectories.  The fuel argument bounds
the recursion depth; `find_c_and_h_files` passes more fuel than there are
directories, so it never runs out. -/
def walk (fs : FS) (exclude_set : List PyStr) : Nat → PyStr → List PyStr
  | 0, _ => []
  | fuel + 1, root =>
    let dirs := (childDirs fs root).filter (fun d => !decide (d ∈ exclude_set))
    let here := (childFiles fs root).filterMap (fun f =>
      if f ∈ exclude_set then none
      else if pyEndsWith f (ps ".c") || pyEndsWith f (ps ".h") then some f
      else none)
    here ++ dirs.flatMap (fun d => walk fs exclude_set fuel d)

/-- Model of `find_c_and_h_files(paths, excludes)` (src/normino.py lines
71-94).  Python lists are passed by reference and
`excludes.extend(downloaded_excludes)` mutates the caller's list in
place, so the model returns the pair of the collected files and the final
state of the caller's `excludes` list. -/
def find_c_and_h_files (fs : FS) (paths excludes : List PyStr) : List PyStr × List PyStr :=
  let excludes2 := match fs.downloadedTests with
    | some manifestLines => excludes ++ manifestLines.map pyStrip
    | none => excludes
  let exclude_set := excludes2.map (abspath fs.cwd)
  let included_files := paths.flatMap (fun path =>
    let abs_path := abspath fs.cwd path
    if abs_path ∈ fs.filesList then
      if abs_path ∉ exclude_set ∧ (pyEndsWith abs_path (ps ".c") || pyEndsWith abs_path (ps ".h")) = true
      then [abs_path] else []
    else if abs_path ∈ fs.dirsList then
      walk fs exclude_set (fs.dirsList.length + 1) abs_path
    else [])
  (included_files, excludes2)

/-- Model of `textwrap.fill(text, width, break_on_hyphens=False)`: greedy
word wrapping (without mid-word breaking, which the tool's inputs do not
trigger), joined with newlines. -/
def greedyGo (width : Nat) : List PyStr → PyStr → List PyStr
  | [], cur => [cur]
  | w :: ws, cur =>
    if cur.length + 1 + w.length ≤ width then greedyGo width ws (cur ++ ps " " ++ w)
    else cur :: greedyGo width ws w

/-- Greedy line breaking over the whitespace-separated words of `text`. -/
def textwrap_fill (text : PyStr) (width : Nat) : PyStr :=
  match pySplitWs text with
  | [] => []
  | w :: ws => pyJoin [Char.ofNat 10] (greedyGo width ws w)

/-- Model of `display_errors(file, errors, detailed)` (src/normino.py lines
44-68), as the list of printed lines: nothing for an empty error list,
otherwise the cyan relative file path followed by the error lines —
one per line in detailed mode or when only one column fits, and otherwise
laid out in `num_cols` side-by-side columns of left-justified cells. -/
def display_errors (cwd : PyStr) (terminal_width : Nat) (file : PyStr) (errors : List PyStr)
    (detailed : Bool) : List PyStr :=
  if errors.isEmpty then []
  else
    let header := colorize_text (relpath cwd file) (ps "CYAN") false
    if detailed then header :: errors
    else
      let max_error_length := (errors.map List.length).foldl max 0
      let column_width := max_error_length + 2
      let num_cols := max 1 (terminal_width / column_width)
      if num_cols = 1 then header :: errors
      else
        let num_rows := (errors.length + num_cols - 1) / num_cols
        let columns := (List.range num_cols).map (fun i => (errors.drop (i * num_rows)).take num_rows)
        header :: (List.range num_rows).map (fun r =>
          pyJoin [] (columns.map (fun col => ljust (col.getD r []) column_width)))

/-- Model of `print_warnings(warning_files)` (src/normino.py lines
139-145), as the list of printed lines. -/
def print_warnings (cwd : PyStr) (warning_files : List (PyStr × List PyStr)) : List PyStr :=
  colorize_text (ps "══════════════[ WARN ]══════════════════") (ps "YELLOW") false
    :: warning_files.flatMap (fun fw =>
      colorize_text (relpath cwd fw.1 ++ ps ":") (ps "CYAN") false
        :: fw.2.map (fun w => ps "   " ++ colorize_text w (ps "YELLOW") false))

/-- The value `run_norminette` returns: the `(len(errors_by_file),
len(files_failed))` pair in printing mode, or the per-directory failure
counts in silent mode. -/
inductive RunRet where
  | counts (errors failed : Nat)
  | dirstats (stats : List (PyStr × Nat))
deriving DecidableEq

/-- Model of `run_norminette(files, error_only, summary_only, detailed,
print_output)` (src/normino.py lines 147-220) applied to the completed
per-file results in completion order.  Produces the list of printed
strings (one element per `print` call; empty when `print_output` is
false) together with the returned value.  `cwd` and `terminal_width`
stand for the process working directory and `shutil.get_terminal_size()`,
and `elapsed` for the formatted wall-clock duration in the execution-time
line. -/
def run_norminette (outs : List Outcome) (error_only summary_only detailed print_output : Bool)
    (cwd : PyStr) (terminal_width : Nat) (elapsed : PyStr) : List PyStr × RunRet :=
  let b := aggregate outs
  if print_output then
    let body :=
      if summary_only then []
      else
        (if !b.files_ok.isEmpty && !error_only then
          [colorize_text (ps "══════════════[ PASS ]══════════════════") (ps "GREEN") false]
            ++ [textwrap_fill
                  (colorize_text (pyJoin (ps ", ") ((sortedPass b).map (relpath cwd))) (ps "GREEN") false)
                  terminal_width]
            ++ (if !b.errors_by_file.isEmpty then [[]] else [])
        else [])
        ++ (if !b.warning_files.isEmpty then print_warnings cwd b.warning_files else [])
        ++ (if !b.errors_by_file.isEmpty then
              [colorize_text (ps "══════════════[ FAIL ]══════════════════") (ps "RED") false]
                ++ [colorize_text (rjust (ps "Line") 4 ++ ps " " ++ rjust (ps "Col") 4
                      ++ ps " Error Description") (ps "YELLOW") false]
                ++ (sortedFail b).flatMap (fun fe =>
                      display_errors cwd terminal_width fe.1 (payloadErrsData fe.2) detailed)
            else [])
        ++ (if !b.files_failed.isEmpty then
              [ps "══════════════[ FAILED ]════════════════"]
                ++ (sortedFailed b).map (fun fm =>
                      textwrap_fill
                        (colorize_text (fm.1 ++ ps ": " ++ payloadMsgData fm.2) (ps "YELLOW") false)
                        terminal_width)
            else [])
    let summaryBlock :=
      if summary_only || !b.errors_by_file.isEmpty || !b.files_failed.isEmpty then
        [ps "════════════════════════════════════════"]
          ++ [colorize_text (ps "Correct files: " ++ natRepr (okCount b)) (ps "GREEN") false]
          ++ [colorize_text (ps "Files with errors: " ++ natRepr (errorFileCount b)) (ps "RED") false]
          ++ (if failedCount b ≠ 0 then
                [colorize_text (ps "Files that crashed norminette: " ++ natRepr (failedCount b)) (ps "RED") false]
              else [])
      else []
    ([colorize_text (ps "Processing...") (ps "CYAN") false]
       ++ [ps "\x1b[A                             \x1b[A"]
       ++ body ++ summaryBlock
       ++ [colorize_text (ps "Execution time: " ++ elapsed ++ ps " seconds") (ps "BLUE") false],
     RunRet.counts b.errors_by_file.length b.files_failed.length)
  else
    ([], RunRet.dirstats (dirStats cwd b))

/-- Transport of `PyStr` literal equality to `String` literal equality,
which lets `simp` discharge status-string comparisons. -/
theorem ps_eq_iff (a b : String) : ps a = ps b ↔ a = b :=
  ⟨fun h => String.ext h, fun h => h ▸ rfl⟩

/-- Selector for results routed to `files_ok`. -/
def isOkO (o : Outcome) : Bool := decide (o.status = ps "ok")

/-- Selector for results routed to `warning_files`. -/
def isWarnO (o : Outcome) : Bool := decide (o.status = ps "warning")

/-- Selector for results routed to `errors_by_file`: error status with a
truthy diagnostics list. -/
def isErrKeptO (o : Outcome) : Bool := decide (o.status = ps "error") && pyTruthy o.payload

/-- Selector for results routed to `files_failed`. -/
def isFailO (o : Outcome) : Bool :=
  decide (o.status = ps "fail") || decide (o.status = ps "timeout") || decide (o.status = ps "crash")

/-- Selector for the results the collection loop drops: error status with a
falsy (empty) diagnostics list. -/
def emptyErrO (o : Outcome) : Bool := decide (o.status = ps "error") && !pyTruthy o.payload

/-- The `files_ok` bucket contents contributed by a result list. -/
def okPart (outs : List Outcome) : List PyStr := (outs.filter isOkO).map Outcome.file

/-- The `warning_files` bucket contents contributed by a result list. -/
def warnPart (outs : List Outcome) : List (PyStr × List PyStr) :=
  (outs.filter isWarnO).map (fun o => (o.file, [warningAdvisory]))

/-- The `errors_by_file` bucket contents contributed by a result list. -/
def errPart (outs : List Outcome) : List (PyStr × Payload) :=
  (outs.filter isErrKeptO).map (fun o => (o.file, o.payload))

/-- The `files_failed` bucket contents contributed by a result list. -/
def failPart (outs : List Outcome) : List (PyStr × Payload) :=
  (outs.filter isFailO).map (fun o => (o.file, o.payload))

/-- Closed form of the collection loop: folding the completed results over
`foldOutcome` appends, to each bucket of the accumulator, exactly the
results selected for that bucket, in completion order. -/
theorem foldl_foldOutcome (outs : List Outcome) (acc : Buckets) :
    outs.foldl foldOutcome acc =
      ⟨acc.files_ok ++ okPart outs, acc.files_failed ++ failPart outs,
       acc.errors_by_file ++ errPart outs, acc.warning_files ++ warnPart outs⟩ := by
  induction outs generalizing acc with
  | nil => simp [okPart, warnPart, errPart, failPart]
  | cons o rest ih =>
    rw [List.foldl_cons, ih]
    by_cases h1 : o.status = ps "ok"
    · simp [foldOutcome, okPart, warnPart, errPart, failPart, isOkO, isWarnO, isErrKeptO, isFailO,
        List.filter_cons, h1, ps_eq_iff]
    · by_cases h2 : o.status = ps "warning"
      · simp [foldOutcome, okPart, warnPart, errPart, failPart, isOkO, isWarnO, isErrKeptO, isFailO,
          List.filter_cons, h2, ps_eq_iff]
      · by_cases h3 : o.status = ps "error"
        · by_cases h4 : pyTruthy o.payload = true
          · simp [foldOutcome, okPart, warnPart, errPart, failPart, isOkO, isWarnO, isErrKeptO,
              isFailO, List.filter_cons, h3, h4, ps_eq_iff]
          · simp only [Bool.not_eq_true] at h4
            simp [foldOutcome, okPart, warnPart, errPart, failPart, isOkO, isWarnO, isErrKeptO,
              isFailO, List.filter_cons, h3, h4, ps_eq_iff]
        · by_cases h5 : o.status = ps "fail" ∨ o.status = ps "timeout" ∨ o.status = ps "crash"
          · rcases h5 with h5 | h5 | h5 <;>
              simp [foldOutcome, okPart, warnPart, errPart, failPart, isOkO, isWarnO, isErrKeptO,
                isFailO, List.filter_cons, h5, ps_eq_iff]
          · push_neg at h5
            obtain ⟨h5a, h5b, h5c⟩ := h5
            simp [foldOutcome, okPart, warnPart, errPart, failPart, isOkO, isWarnO, isErrKeptO,
              isFailO, List.filter_cons, h1, h2, h3, h5a, h5b, h5c]

/-- The four buckets of `aggregate`, in closed form. -/
theorem aggregate_eq (outs : List Outcome) :
    aggregate outs = ⟨okPart outs, failPart outs, errPart outs, warnPart outs⟩ := by
  unfold aggregate
  rw [foldl_foldOutcome]
  simp

/-- Shape of the result tuples `check_file` can produce: `"ok"` and
`"warning"` carry `None`, `"error"` carries a diagnostics list, and the
three failure statuses carry a message string. -/
def wfOutcome (o : Outcome) : Bool :=
  match o.payload with
  | .noneP => decide (o.status = ps "ok") || decide (o.status = ps "warning")
  | .errs _ => decide (o.status = ps "error")
  | .msg _ =>
    decide (o.status = ps "fail") || decide (o.status = ps "timeout") || decide (o.status = ps "crash")

/-- Every result `check_file` returns is well-shaped. -/
theorem check_file_wf (f : PyStr) (d : Bool) (b : ProcBehavior) :
    wfOutcome (check_file f d b) = true := by
  unfold check_file
  cases hsr : subprocess_run false 5 b with
  | completed c out =>
    simp only
    by_cases h1 : (pyContains out (ps "Notice:") && pyContains out (ps ": OK!")) = true
    · rw [if_pos h1]; rfl
    · rw [if_neg h1]
      by_cases h2 : pyContains out (ps ": OK!") = true
      · rw [if_pos h2]; rfl
      · rw [if_neg h2]
        cases hc : collectErrors d (pySplitlines out) with
        | ok errs => rfl
        | error e => rfl
  | calledProcessError m => rfl
  | timeoutExpired => rfl
  | otherExn m => rfl

/-- Counting form of the collection loop: over well-shaped results, the
four bucket sizes plus the number of dropped empty-diagnostics error
results add up to the number of results. -/
theorem parts_sum (outs : List Outcome) (hwf : ∀ o ∈ outs, wfOutcome o = true) :
    (okPart outs).length + (warnPart outs).length + (errPart outs).length
      + (failPart outs).length + (outs.filter emptyErrO).length = outs.length := by
  induction outs with
  | nil => simp [okPart, warnPart, errPart, failPart]
  | cons o rest ih =>
    have hwfo : wfOutcome o = true := hwf o (List.mem_cons_self o rest)
    have ihr := ih (fun x hx => hwf x (List.mem_cons_of_mem o hx))
    simp only [okPart, warnPart, errPart, failPart, List.length_map] at ihr ⊢
    obtain ⟨fo, so, po⟩ := o
    cases po with
    | noneP =>
      simp only [wfOutcome, Bool.or_eq_true, decide_eq_true_eq] at hwfo
      rcases hwfo with hs | hs <;> subst hs <;>
        simp [isOkO, isWarnO, isErrKeptO, isFailO, emptyErrO, pyTruthy, List.filter_cons,
          ps_eq_iff] <;> omega
    | errs l =>
      simp only [wfOutcome, decide_eq_true_eq] at hwfo
      subst hwfo
      cases l with
      | nil =>
        simp [isOkO, isWarnO, isErrKeptO, isFailO, emptyErrO, pyTruthy, List.filter_cons,
          List.isEmpty, ps_eq_iff]
        omega
      | cons d ds =>
        simp [isOkO, isWarnO, isErrKeptO, isFailO, emptyErrO, pyTruthy, List.filter_cons,
          List.isEmpty, ps_eq_iff]
        omega
    | msg m =>
      simp only [wfOutcome, Bool.or_eq_true, decide_eq_true_eq] at hwfo
      rcases hwfo with (hs | hs) | hs <;> subst hs <;>
        simp [isOkO, isWarnO, isErrKeptO, isFailO, emptyErrO, pyTruthy, List.filter_cons,
          ps_eq_iff] <;> omega

/-- The tuple comparison refines the file-path comparison. -/
theorem errPairLe_fst {x y : PyStr × Payload} (h : errPairLe x y) : fstLe x y := by
  unfold errPairLe errKey at h
  rcases (Prod.Lex.le_iff _ _).mp h with hlt | ⟨heq, _⟩
  · exact le_of_lt hlt
  · exact le_of_eq heq

/-- A list of pairs with pairwise-distinct first components is determined
by its multiset of elements once it is sorted by first component: two
permuted such lists, both sorted, are equal.  This is the determinism
core behind the sorted FAIL and FAILED listings. -/
theorem sorted_nodup_key_unique {β : Type} :
    ∀ {l1 l2 : List (PyStr × β)}, l1.Perm l2 →
      l1.Pairwise fstLe → l2.Pairwise fstLe → (l1.map Prod.fst).Nodup → l1 = l2 := by
  intro l1
  induction l1 with
  | nil =>
    intro l2 hp _ _ _
    exact (hp.symm.eq_nil).symm
  | cons x xs ih =>
    intro l2 hp hs1 hs2 hnd
    cases l2 with
    | nil => exact absurd hp.eq_nil (by simp)
    | cons y ys =>
      have hxy : x = y := by
        have hx2 : x ∈ y :: ys := hp.mem_iff.mp (List.mem_cons_self x xs)
        rcases List.mem_cons.mp hx2 with h | hxys
        · exact h
        · have hy1 : y ∈ x :: xs := hp.symm.mem_iff.mp (List.mem_cons_self y ys)
          rcases List.mem_cons.mp hy1 with h | hyxs
          · exact h.symm
          · have hle1 : fstLe x y := List.rel_of_pairwise_cons hs1 hyxs
            have hle2 : fstLe y x := List.rel_of_pairwise_cons hs2 hxys
            have heq : x.1 = y.1 := le_antisymm hle1 hle2
            have hin : x.1 ∈ xs.map Prod.fst := heq ▸ List.mem_map_of_mem Prod.fst hyxs
            have hnotin : x.1 ∉ xs.map Prod.fst := by
              simp only [List.map_cons, List.nodup_cons] at hnd
              exact hnd.1
            exact absurd hin hnotin
      subst hxy
      have hrest : xs.Perm ys := hp.cons_inv
      have htail : xs = ys := by
        apply ih hrest (List.pairwise_cons.mp hs1).2 (List.pairwise_cons.mp hs2).2
        simp only [List.map_cons, List.nodup_cons] at hnd
        exact hnd.2
      rw [htail]

/-- Sorting the success paths is invariant under permutation of the
input. -/
theorem pass_sorted_eq {l1 l2 : List PyStr} (hp : l1.Perm l2) :
    List.insertionSort (fun x y => x ≤ y) l1 = List.insertionSort (fun x y => x ≤ y) l2 :=
  List.eq_of_perm_of_sorted
    ((List.perm_insertionSort _ l1).trans (hp.trans (List.perm_insertionSort _ l2).symm))
    (List.sorted_insertionSort (fun x y => x ≤ y) l1)
    (List.sorted_insertionSort (fun x y => x ≤ y) l2)

/-- Sorting the error bucket by result tuple is invariant under permutation
of the input once file paths are pairwise distinct. -/
theorem fail_sorted_eq {l1 l2 : List (PyStr × Payload)} (hp : l1.Perm l2)
    (hnd : (l1.map Prod.fst).Nodup) :
    List.insertionSort errPairLe l1 = List.insertionSort errPairLe l2 := by
  apply sorted_nodup_key_unique
  · exact (List.perm_insertionSort _ l1).trans (hp.trans (List.perm_insertionSort _ l2).symm)
  · exact (List.sorted_insertionSort errPairLe l1).imp (fun h => errPairLe_fst h)
  · exact (List.sorted_insertionSort errPairLe l2).imp (fun h => errPairLe_fst h)
  · exact (((List.perm_insertionSort errPairLe l1).map Prod.fst).symm).nodup hnd

/-- Sorting the failure bucket by file path is invariant under permutation
of the input once file paths are pairwise distinct. -/
theorem failed_sorted_eq {l1 l2 : List (PyStr × Payload)} (hp : l1.Perm l2)
    (hnd : (l1.map Prod.fst).Nodup) :
    List.insertionSort fstLe l1 = List.insertionSort fstLe l2 := by
  apply sorted_nodup_key_unique
  · exact (List.perm_insertionSort _ l1).trans (hp.trans (List.perm_insertionSort _ l2).symm)
  · exact List.sorted_insertionSort fstLe l1
  · exact List.sorted_insertionSort fstLe l2
  · exact (((List.perm_insertionSort fstLe l1).map Prod.fst).symm).nodup hnd

/-- First components of the error bucket are the files of the selected
results. -/
theorem errPart_map_fst (outs : List Outcome) :
    (errPart outs).map Prod.fst = (outs.filter isErrKeptO).map Outcome.file := by
  simp [errPart, List.map_map, Function.comp]

/-- First components of the failure bucket are the files of the selected
results. -/
theorem failPart_map_fst (outs : List Outcome) :
    (failPart outs).map Prod.fst = (outs.filter isFailO).map Outcome.file := by
  simp [failPart, List.map_map, Function.comp]

/-- Checked-file distinctness is inherited by every selection of the
results. -/
theorem filter_map_file_nodup (p : Outcome → Bool) (outs : List Outcome)
    (h : (outs.map Outcome.file).Nodup) : ((outs.filter p).map Outcome.file).Nodup :=
  ((List.filter_sublist outs).map Outcome.file).nodup h

/-- The three completed results of the directory-summary example: an error
file and a crashed file under `/a/b`, and a clean file under `/a/c`. -/
def silentOutcomes : List Outcome :=
  [⟨ps "/a/b/x.c", ps "error", .errs [ps "e"]⟩,
   ⟨ps "/a/b/y.c", ps "crash", .msg (ps "An error occurred: boom")⟩,
   ⟨ps "/a/c/z.c", ps "ok", .noneP⟩]

/-- The diagnostics line of the parser extraction example. -/
def c5line : PyStr := ps "Error: RULENAME(line: 12, col: 4) some detail"

/-- Filesystem of the exclusion example: working directory `/root`
containing exactly `foo.c` and `bar/baz.c`, and no fixture manifest. -/
def fsC8 : FS :=
  ⟨ps "/root", [ps "/root", ps "/root/bar"], [ps "/root/foo.c", ps "/root/bar/baz.c"], none⟩

/-- Filesystem with a `downloaded.tests` manifest recording `tests`. -/
def fsC9 : FS := ⟨ps "/root", [ps "/root"], [ps "/root/foo.c"], some [ps "tests"]⟩

/-- A warning result for `/a/a.c`. -/
def warnA : Outcome := ⟨ps "/a/a.c", ps "warning", .noneP⟩

/-- A warning result for `/a/b.c`. -/
def warnB : Outcome := ⟨ps "/a/b.c", ps "warning", .noneP⟩

/-- An ok result for `/a/ok.c`. -/
def okOutcome : Outcome := ⟨ps "/a/ok.c", ps "ok", .noneP⟩

/-- An error result for `/a/err.c` with one diagnostic. -/
def errOutcome : Outcome := ⟨ps "/a/err.c", ps "error", .errs [ps "e"]⟩

/-- Claim C1 is false as stated: a checked file whose outcome has status
`"error"` and an empty diagnostics list — here produced by `check_file`
itself on a completed process with empty output — is placed in none of
the four buckets, so the bucket sizes sum to 0 while 1 file was
checked. -/
theorem claim_c1_counterexample :
    check_file (ps "a.c") false (ProcBehavior.runsFor 1 0 (ps ""))
      = ⟨ps "a.c", ps "error", Payload.errs []⟩
    ∧ (aggregate [⟨ps "a.c", ps "error", Payload.errs []⟩]).files_ok.length
        + (aggregate [⟨ps "a.c", ps "error", Payload.errs []⟩]).warning_files.length
        + (aggregate [⟨ps "a.c", ps "error", Payload.errs []⟩]).errors_by_file.length
        + (aggregate [⟨ps "a.c", ps "error", Payload.errs []⟩]).files_failed.length
      ≠ [(⟨ps "a.c", ps "error", Payload.errs []⟩ : Outcome)].length := by
  refine ⟨rfl, by decide⟩

/-- Claim C1 (amended): every completed result is placed into exactly one
of the four buckets, except a result with status error and an empty
diagnostics list, which is dropped; hence the bucket sizes plus the
number of dropped empty-diagnostics error results sum to the number of
files checked. -/
theorem claim_c1_amended (outs : List Outcome) (hwf : ∀ o ∈ outs, wfOutcome o = true) :
    (aggregate outs).files_ok.length + (aggregate outs).warning_files.length
      + (aggregate outs).errors_by_file.length + (aggregate outs).files_failed.length
      + (outs.filter emptyErrO).length = outs.length := by
  rw [aggregate_eq]
  exact parts_sum outs hwf

/-- Witness for the amended claim C1 at a concrete result list. -/
theorem claim_c1_witness :
    (aggregate [okOutcome, errOutcome]).files_ok.length
      + (aggregate [okOutcome, errOutcome]).warning_files.length
      + (aggregate [okOutcome, errOutcome]).errors_by_file.length
      + (aggregate [okOutcome, errOutcome]).files_failed.length
      + ([okOutcome, errOutcome].filter emptyErrO).length = [okOutcome, errOutcome].length :=
  claim_c1_amended [okOutcome, errOutcome] (by decide)

/-- Claim C2 is false as stated: on a line containing `"Error:"` but no
parenthesized location segment, `parse_output_line` raises `IndexError`
instead of skipping the line. -/
theorem claim_c2_counterexample :
    parse_output_line (ps "Error: oops") false = Except.error PyErr.indexError := rfl

/-- Claim C2 (amended): the parser is total on every line not containing
the `"Error:"` marker, but a structurally malformed `"Error:"` line makes
it raise, and `check_file` catches the exception in its generic handler,
reclassifying the whole file's check as `"crash"` (the run itself
continues, producing a normal outcome value). -/
theorem claim_c2_amended (line : PyStr) (d : Bool) (f : PyStr)
    (hno : pyContains line (ps "Error:") = false) :
    (∃ r, parse_output_line line d = Except.ok r)
    ∧ check_file f d (ProcBehavior.runsFor 1 0 (ps "Error: oops"))
        = ⟨f, ps "crash", Payload.msg (ps "An error occurred: list index out of range")⟩ := by
  constructor
  · unfold parse_output_line
    by_cases h1 : pyContains line (ps "Unexpected EOF") = true
    · rw [if_pos h1]
      exact ⟨some line, rfl⟩
    · rw [if_neg h1, if_neg (by simp [hno])]
      by_cases h3 : pyContains line (ps ": Error!") = true
      · rw [if_pos h3]
        exact ⟨none, rfl⟩
      · rw [if_neg h3]
        exact ⟨none, rfl⟩
  · rfl

/-- Witness for the amended claim C2 at a concrete line. -/
theorem claim_c2_witness :
    (∃ r, parse_output_line (ps "norm: OK!") false = Except.ok r)
    ∧ check_file (ps "a.c") false (ProcBehavior.runsFor 1 0 (ps "Error: oops"))
        = ⟨ps "a.c", ps "crash", Payload.msg (ps "An error occurred: list index out of range")⟩ :=
  claim_c2_amended (ps "norm: OK!") false (ps "a.c") (by decide)

/-- Claim C3 (confirmed): a file whose checker process exceeds the 5 second
timeout gets the `"timeout"` outcome whose failure detail names the file,
and in the aggregation that file lands in the failed bucket (counted by
`failedCount`) and never in the error bucket (counted by
`errorFileCount`). -/
theorem claim_c3 (f : PyStr) (d : Bool) (s : Nat) (c : Int) (stdout : PyStr)
    (outs : List Outcome) (hs : 5 < s)
    (hmem : Outcome.mk f (ps "timeout") (Payload.msg (ps "Checking timed out for " ++ f)) ∈ outs)
    (hnd : (outs.map Outcome.file).Nodup) :
    check_file f d (ProcBehavior.runsFor s c stdout)
      = ⟨f, ps "timeout", Payload.msg (ps "Checking timed out for " ++ f)⟩
    ∧ f ∈ (aggregate outs).files_failed.map Prod.fst
    ∧ f ∉ (aggregate outs).errors_by_file.map Prod.fst := by
  refine ⟨?_, ?_, ?_⟩
  · unfold check_file
    have hsr : subprocess_run false 5 (ProcBehavior.runsFor s c stdout) = RunResult.timeoutExpired := by
      simp [subprocess_run, hs]
    rw [hsr]
  · rw [aggregate_eq]
    show f ∈ (failPart outs).map Prod.fst
    rw [failPart_map_fst]
    exact List.mem_map.mpr
      ⟨⟨f, ps "timeout", Payload.msg (ps "Checking timed out for " ++ f)⟩,
       List.mem_filter.mpr ⟨hmem, rfl⟩, rfl⟩
  · rw [aggregate_eq]
    show f ∉ (errPart outs).map Prod.fst
    rw [errPart_map_fst]
    intro hmemErr
    obtain ⟨o, hof, hfile⟩ := List.mem_map.mp hmemErr
    obtain ⟨homem, hcond⟩ := List.mem_filter.mp hof
    simp only [isErrKeptO, Bool.and_eq_true, decide_eq_true_eq] at hcond
    have hoeq : o = ⟨f, ps "timeout", Payload.msg (ps "Checking timed out for " ++ f)⟩ :=
      List.inj_on_of_nodup_map hnd homem hmem (by rw [hfile])
    rw [hoeq] at hcond
    have hts : ps "timeout" = ps "error" := hcond.1
    exact absurd hts (by decide)

/-- Witness for claim C3 at a concrete timed-out file. -/
theorem claim_c3_witness :
    check_file (ps "a.c") false (ProcBehavior.runsFor 6 0 (ps ""))
      = ⟨ps "a.c", ps "timeout", Payload.msg (ps "Checking timed out for " ++ ps "a.c")⟩
    ∧ ps "a.c" ∈ (aggregate [⟨ps "a.c", ps "timeout",
        Payload.msg (ps "Checking timed out for " ++ ps "a.c")⟩]).files_failed.map Prod.fst
    ∧ ps "a.c" ∉ (aggregate [⟨ps "a.c", ps "timeout",
        Payload.msg (ps "Checking timed out for " ++ ps "a.c")⟩]).errors_by_file.map Prod.fst :=
  claim_c3 (ps "a.c") false 6 0 (ps "")
    [⟨ps "a.c", ps "timeout", Payload.msg (ps "Checking timed out for " ++ ps "a.c")⟩]
    (by omega) (by decide) (by decide)

/-- Claim C4 (confirmed): in silent mode the engine prints nothing —
regardless of the other flags, the terminal geometry and the clock — and
returns exactly the per-directory failure counts of the example: the
error file and the crashed file both lie in `/a/b`, the ok file
contributes nothing, so the result is exactly `{"/a/b": 2}`. -/
theorem claim_c4 (error_only summary_only detailed : Bool) (cwd elapsed : PyStr)
    (terminal_width : Nat) :
    run_norminette silentOutcomes error_only summary_only detailed false cwd terminal_width elapsed
      = ([], RunRet.dirstats [(ps "/a/b", 2)]) := rfl

/-- Claim C5 (confirmed): on the line
`"Error: RULENAME(line: 12, col: 4) some detail"` the parser extracts the
line number 12, the column number 4 and the rule name `RULENAME`, and the
produced diagnostic contains the trailing detail text exactly when
detailed mode is requested. -/
theorem claim_c5 (detailed : Bool) :
    errorLineFields c5line detailed
      = Except.ok (ps "12", ps " 4", ps "RULENAME", if detailed then ps "some detail" else [])
    ∧ pyToNat (ps "12") = 12
    ∧ pyToNat (pyStrip (ps " 4")) = 4
    ∧ parse_output_line c5line detailed
      = Except.ok (some (if detailed then
          error_info_render (ps "12") (ps " 4") (ps "RULENAME") ++ ps " " ++ ps "some detail"
        else error_info_render (ps "12") (ps " 4") (ps "RULENAME")))
    ∧ pyContains (if detailed then
          error_info_render (ps "12") (ps " 4") (ps "RULENAME") ++ ps " " ++ ps "some detail"
        else error_info_render (ps "12") (ps " 4") (ps "RULENAME")) (ps "some detail")
      = detailed := by
  cases detailed <;> exact ⟨rfl, by decide, by decide, rfl, by decide⟩

/-- Claim C6 is false as stated: a line carrying the bare `": Error!"`
marker yields no diagnostic at all — `parse_output_line` returns `None`
for it, exactly as for a non-diagnostic line. -/
theorem claim_c6_counterexample :
    parse_output_line (ps "foo.c: Error!") false = Except.ok none := rfl

/-- Claim C6 (amended): a line containing the bare `": Error!"` marker (and
neither of the other recognized markers) yields no diagnostic: the parser
returns `None` for it. -/
theorem claim_c6_amended (line : PyStr) (d : Bool)
    (h1 : pyContains line (ps "Unexpected EOF") = false)
    (h2 : pyContains line (ps "Error:") = false)
    (h3 : pyContains line (ps ": Error!") = true) :
    parse_output_line line d = Except.ok none := by
  unfold parse_output_line
  rw [if_neg (by simp [h1]), if_neg (by simp [h2]), if_pos h3]

/-- Witness for the amended claim C6 at a concrete file-level failure
line. -/
theorem claim_c6_witness :
    parse_output_line (ps "bar.c: Error!") true = Except.ok none :=
  claim_c6_amended (ps "bar.c: Error!") true (by decide) (by decide) (by decide)

/-- Claim C7 is false as stated in its stronger reading: the raw
aggregation — and with it the rendered report, whose WARN section prints
`warning_files` in completion order without sorting — is not invariant
under permutation of the completion order: two warning files arriving in
opposite orders give different buckets and different printed output. -/
theorem claim_c7_counterexample :
    aggregate [warnA, warnB] ≠ aggregate [warnB, warnA]
    ∧ (run_norminette [warnA, warnB] false false false true (ps "/a") 80 (ps "0.10")).1
      ≠ (run_norminette [warnB, warnA] false false false true (ps "/a") 80 (ps "0.10")).1 := by
  exact ⟨by decide, by decide⟩

/-- Claim C7 (amended): over a result set with pairwise-distinct file
paths, the sorted PASS listing, the sorted FAIL listing, the sorted
FAILED listing and the three summary counts are invariant under every
permutation of the completion order; the unsorted WARN section is the
exception that keeps the full report from being invariant. -/
theorem claim_c7_amended (outs outs2 : List Outcome) (hperm : outs.Perm outs2)
    (hnd : (outs.map Outcome.file).Nodup) :
    sortedPass (aggregate outs) = sortedPass (aggregate outs2)
    ∧ sortedFail (aggregate outs) = sortedFail (aggregate outs2)
    ∧ sortedFailed (aggregate outs) = sortedFailed (aggregate outs2)
    ∧ okCount (aggregate outs) = okCount (aggregate outs2)
    ∧ errorFileCount (aggregate outs) = errorFileCount (aggregate outs2)
    ∧ failedCount (aggregate outs) = failedCount (aggregate outs2) := by
  have hok : (okPart outs).Perm (okPart outs2) := (hperm.filter isOkO).map Outcome.file
  have herr : (errPart outs).Perm (errPart outs2) := by
    unfold errPart
    exact (hperm.filter isErrKeptO).map _
  have hfail : (failPart outs).Perm (failPart outs2) := by
    unfold failPart
    exact (hperm.filter isFailO).map _
  have hndErr : ((errPart outs).map Prod.fst).Nodup := by
    rw [errPart_map_fst]
    exact filter_map_file_nodup isErrKeptO outs hnd
  have hndFail : ((failPart outs).map Prod.fst).Nodup := by
    rw [failPart_map_fst]
    exact filter_map_file_nodup isFailO outs hnd
  refine ⟨?_, ?_, ?_, ?_, ?_, ?_⟩
  · unfold sortedPass
    rw [aggregate_eq, aggregate_eq]
    exact pass_sorted_eq hok
  · unfold sortedFail
    rw [aggregate_eq, aggregate_eq]
    exact fail_sorted_eq herr hndErr
  · unfold sortedFailed
    rw [aggregate_eq, aggregate_eq]
    exact failed_sorted_eq hfail hndFail
  · unfold okCount
    rw [aggregate_eq, aggregate_eq]
    exact hok.length_eq
  · unfold errorFileCount
    rw [aggregate_eq, aggregate_eq]
    exact ((herr.map Prod.fst).dedup).length_eq
  · unfold failedCount
    rw [aggregate_eq, aggregate_eq]
    exact hfail.length_eq

/-- Witness for the amended claim C7 at a concrete pair of completion
orders. -/
theorem claim_c7_witness :
    sortedPass (aggregate [okOutcome, errOutcome]) = sortedPass (aggregate [errOutcome, okOutcome])
    ∧ sortedFail (aggregate [okOutcome, errOutcome]) = sortedFail (aggregate [errOutcome, okOutcome])
    ∧ sortedFailed (aggregate [okOutcome, errOutcome])
        = sortedFailed (aggregate [errOutcome, okOutcome])
    ∧ okCount (aggregate [okOutcome, errOutcome]) = okCount (aggregate [errOutcome, okOutcome])
    ∧ errorFileCount (aggregate [okOutcome, errOutcome])
        = errorFileCount (aggregate [errOutcome, okOutcome])
    ∧ failedCount (aggregate [okOutcome, errOutcome])
        = failedCount (aggregate [errOutcome, okOutcome]) :=
  claim_c7_amended [okOutcome, errOutcome] [errOutcome, okOutcome] (by decide) (by decide)

/-- Claim C8 (confirmed): for a working directory containing exactly
`foo.c` and `bar/baz.c`, discovering from root `.` with exclusion `bar`
prunes the `bar` subtree and returns exactly the absolute path of
`foo.c`. -/
theorem claim_c8 :
    (find_c_and_h_files fsC8 [ps "."] [ps "bar"]).1 = [ps "/root/foo.c"] := by decide

/-- Claim C9 is false as stated: when a `downloaded.tests` manifest exists,
`find_c_and_h_files` extends the caller's `excludes` list in place, so
the caller observes a changed list. -/
theorem claim_c9_counterexample :
    (find_c_and_h_files fsC9 [ps "."] []).2 = [ps "tests"]
    ∧ [ps "tests"] ≠ ([] : List PyStr) := by
  exact ⟨by decide, by decide⟩

/-- Claim C9 (amended): the discoverer performs no writes, and whenever no
`downloaded.tests` manifest exists in the working directory the caller's
`excludes` list is left unchanged; with a manifest present its stripped
lines are appended to the caller's list. -/
theorem claim_c9_amended (fs : FS) (paths excludes : List PyStr)
    (h : fs.downloadedTests = none) :
    (find_c_and_h_files fs paths excludes).2 = excludes := by
  simp only [find_c_and_h_files, h]

/-- Witness for the amended claim C9 at a concrete filesystem. -/
theorem claim_c9_witness :
    (find_c_and_h_files fsC8 [ps "."] [ps "bar"]).2 = [ps "bar"] :=
  claim_c9_amended fsC8 [ps "."] [ps "bar"] rfl

/-- Claim C10 is false in its classification list: a completed checker
process whose output holds a malformed diagnostic line is classified
`"crash"`, which is none of Ok, Warning and Error. -/
theorem claim_c10_counterexample :
    (check_file (ps "f.c") false (ProcBehavior.runsFor 1 1 (ps "Error: x"))).status = ps "crash"
    ∧ ps "crash" ≠ ps "ok" ∧ ps "crash" ≠ ps "warning" ∧ ps "crash" ≠ ps "error" := by
  exact ⟨rfl, by decide, by decide, by decide⟩

/-- Claim C10 (amended): `check_file` never returns the `"fail"`
(ProcessFailed) status — `subprocess.run` is called without `check=True`,
so `CalledProcessError` is never raised and that handler is unreachable —
and the classification of a process that ran within the timeout depends
only on its captured output, never on its exit code; the possible
classifications from output are Ok, Warning, Error, and Crashed (for a
malformed diagnostic line).  -/
theorem claim_c10_amended (f : PyStr) (d : Bool) (b : ProcBehavior) (s : Nat) (c1 c2 : Int)
    (stdout : PyStr) :
    (check_file f d b).status ≠ ps "fail"
    ∧ check_file f d (ProcBehavior.runsFor s c1 stdout)
        = check_file f d (ProcBehavior.runsFor s c2 stdout)
    ∧ (∀ m, subprocess_run false 5 b ≠ RunResult.calledProcessError m) := by
  have hnocpe : ∀ m, subprocess_run false 5 b ≠ RunResult.calledProcessError m := by
    intro m
    cases b with
    | runsFor s0 c0 out0 =>
      simp only [subprocess_run]
      by_cases h : s0 > 5
      · rw [if_pos h]
        exact fun hc => nomatch hc
      · rw [if_neg h, if_neg (by simp)]
        exact fun hc => nomatch hc
    | raisesOther m0 => exact fun hc => nomatch hc
  refine ⟨?_, ?_, hnocpe⟩
  · unfold check_file
    cases hsr : subprocess_run false 5 b with
    | completed c out =>
      simp only
      by_cases h1 : (pyContains out (ps "Notice:") && pyContains out (ps ": OK!")) = true
      · rw [if_pos h1]
        intro hcon
        have hx : ps "warning" = ps "fail" := hcon
        exact absurd hx (by decide)
      · rw [if_neg h1]
        by_cases h2 : pyContains out (ps ": OK!") = true
        · rw [if_pos h2]
          intro hcon
          have hx : ps "ok" = ps "fail" := hcon
          exact absurd hx (by decide)
        · rw [if_neg h2]
          cases hc : collectErrors d (pySplitlines out) with
          | ok errs =>
            intro hcon
            have hx : ps "error" = ps "fail" := hcon
            exact absurd hx (by decide)
          | error e =>
            intro hcon
            have hx : ps "crash" = ps "fail" := hcon
            exact absurd hx (by decide)
    | calledProcessError m => exact absurd hsr (hnocpe m)
    | timeoutExpired =>
      intro hcon
      have hx : ps "timeout" = ps "fail" := hcon
      exact absurd hx (by decide)
    | otherExn m =>
      intro hcon
      have hx : ps "crash" = ps "fail" := hcon
      exact absurd hx (by decide)
  · by_cases h : s > 5 <;> simp [check_file, subprocess_run, h]
